import Mathlib

/-!
Shallow embedding of `src/model.py` (NFL game total projection model).

Numbers are modelled as rationals (`ℚ`): every constant in the source is a
decimal literal, and the claims are about exact arithmetic identities of the
formulas.  Python dictionaries holding per-team statistics are modelled as a
structure of `Option`-valued fields: `none` means the key is absent, and a
`dict[key]` access on an absent key is a `KeyError`, modelled by `Except`.
The `pace` and `def_pass_rate_against` entries can additionally hold the
Python value `None` (that is how `merge_team_data` builds them, via
`tend.get(...)` with no default), so those two fields are `Option (Option ℚ)`:
the outer layer is key presence, the inner layer is the stored value.
-/

namespace Model

/-- Embedding of `calculate_net_epa` (model.py lines 4-9): offense/defense combination with
the 1.6 predictive multiplier. -/
def calculate_net_epa (off_epa def_epa_allowed : ℚ) : ℚ :=
  ((off_epa * 1.6) + (def_epa_allowed * 1.0)) / 2.6

/-- Embedding of `calculate_weighted_epa` (model.py lines 11-22): recency-weighted blend of a
season value and a last-5-games value, bucketed by games played. -/
def calculate_weighted_epa (season_epa last_5_epa : ℚ) (games_played : ℕ) : ℚ :=
  if games_played ≤ 5 then
    season_epa
  else if games_played ≤ 10 then
    (season_epa * 0.65) + (last_5_epa * 0.35)
  else if games_played ≤ 14 then
    (season_epa * 0.50) + (last_5_epa * 0.50)
  else
    (season_epa * 0.40) + (last_5_epa * 0.60)

/-- Embedding of `calculate_expected_pass_rate` (model.py lines 24-44): tendency/defense
blend plus a step-function spread adjustment. -/
def calculate_expected_pass_rate (team_pass_rate proe def_pass_rate_against
    league_avg_pass_rate spread : ℚ) : ℚ :=
  let team_tendency := team_pass_rate + proe
  let defense_influence := def_pass_rate_against - league_avg_pass_rate
  let base_expected := (team_tendency * 0.6) + ((team_pass_rate + defense_influence) * 0.4)
  let spread_adjustment : ℚ :=
    if spread ≥ 7 then 0.05
    else if spread ≥ 4 then 0.03
    else if spread ≤ -7 then -0.04
    else if spread ≤ -4 then -0.02
    else 0.0
  base_expected + spread_adjustment

/-- Embedding of `calculate_expected_plays` (model.py lines 46-58): average pace plus a
spread-based tempo adjustment. -/
def calculate_expected_plays (team_pace opp_pace spread : ℚ) : ℚ :=
  let base_plays := (team_pace + opp_pace) / 2
  let pace_adjustment : ℚ :=
    if |spread| ≤ 3 then 3.0
    else if |spread| ≥ 10 then -4.0
    else 0.0
  base_plays + pace_adjustment

/-- The `precip_impact` dictionary lookup with default 0.0
(model.py lines 76-82). -/
def precip_impact (precipitation : String) : ℚ :=
  if precipitation = "heavy_rain" then 3.0
  else if precipitation = "light_snow" then 2.0
  else if precipitation = "heavy_snow" then 4.0
  else if precipitation = "blizzard" then 8.0
  else 0.0

/-- Embedding of `calculate_weather_adjustment` (model.py lines 60-84): points to subtract
from the total, accumulated from wind band, temperature, and precipitation. -/
def calculate_weather_adjustment (wind_mph temp_f : ℚ) (precipitation : String) : ℚ :=
  let adjustment : ℚ := 0.0
  let adjustment :=
    if wind_mph ≥ 20 then adjustment + 6.0
    else if wind_mph ≥ 15 then adjustment + 3.0
    else if wind_mph ≥ 10 then adjustment + 1.0
    else adjustment
  let adjustment := if temp_f < 0 then adjustment + 2.0 else adjustment
  adjustment + precip_impact precipitation

/-- Embedding of `calculate_success_rate_adjustment` (model.py lines 86-94); the Python
defaults are `league_avg=0.46`, `weight=55`, passed explicitly here. -/
def calculate_success_rate_adjustment (success_rate league_avg weight : ℚ) : ℚ :=
  let differential := success_rate - league_avg
  differential * weight

/-- The per-team statistics dictionary as built by `merge_team_data`
(model.py lines 271-293).  A `none` field is an absent key; `pace` and
`def_pass_rate_against` may be present but hold Python `None`
(inner `none`). -/
structure TeamStats where
  pass_rate : Option ℚ
  proe : Option ℚ
  pace : Option (Option ℚ)
  def_pass_rate_against : Option (Option ℚ)
  season_pass_epa : Option ℚ
  last5_pass_epa : Option ℚ
  season_run_epa : Option ℚ
  last5_run_epa : Option ℚ
  season_pass_success : Option ℚ
  last5_pass_success : Option ℚ
  season_run_success : Option ℚ
  last5_run_success : Option ℚ
  def_season_pass_epa : Option ℚ
  def_last5_pass_epa : Option ℚ
  def_season_run_epa : Option ℚ
  def_last5_run_epa : Option ℚ
  deriving DecidableEq

/-- The dictionary returned by `project_team_score` (model.py lines 397-405). -/
structure ProjectionResult where
  score : ℚ
  pass_rate : ℚ
  plays : ℚ
  pass_attempts : ℚ
  matchup_epa : ℚ
  success_rate : ℚ
  success_adjustment : ℚ
  deriving DecidableEq

/-- A raising dictionary access `stats[key]` (KeyError when the key is
absent). -/
def getField (field : Option ℚ) (key : String) : Except String ℚ :=
  match field with
  | some v => Except.ok v
  | none => Except.error ("KeyError: " ++ key)

/-- Pace resolution in `project_team_score` (model.py lines 311-319):
`pace_override if pace_override is not None else stats.get('pace', 65.0)`,
then the safety check replacing a pace of `0` or `None` with `62.0`. -/
def resolvePace (pace_override : Option ℚ) (pace_field : Option (Option ℚ)) : ℚ :=
  let pace : Option ℚ :=
    match pace_override with
    | some v => some v
    | none => pace_field.getD (some 65.0)
  match pace with
  | none => 62.0
  | some v => if v = 0 then 62.0 else v

/-- Resolution of the opponent defensive pass rate against
(model.py line 313): override if given, else `opp_stats.get(..., 0.60)`.
The result may still be Python `None` (inner `none`), which makes the
arithmetic in `calculate_expected_pass_rate` fail later (TypeError). -/
def resolveDefPassRate (def_pass_rate_override : Option ℚ)
    (field : Option (Option ℚ)) : Option ℚ :=
  match def_pass_rate_override with
  | some v => some v
  | none => field.getD (some 0.60)

/-- The `home_adj[home_strength]` dictionary access (model.py lines 369-375):
KeyError for any string other than the three keys. -/
def home_adj_lookup (home_strength : String) : Except String ℚ :=
  if home_strength = "weak" then Except.ok 0.01
  else if home_strength = "average" then Except.ok 0.015
  else if home_strength = "strong" then Except.ok 0.025
  else Except.error ("KeyError: " ++ home_strength)

/-- QB-out, WR-out, OL-missing, edge-missing and home/away adjustments to the
offensive pass EPA `o_pass`, in source order (model.py lines 348-375). -/
def o_pass_adjusted (o_pass : ℚ) (qb_out : Bool) (elite_wr_out ol_missing edge_missing : ℤ)
    (is_home : Bool) (home_adj : ℚ) : ℚ :=
  let a := if qb_out then o_pass - 0.20 else o_pass
  let b := a - (elite_wr_out * 0.06)
  let c := b - (ol_missing * 0.02)
  let d := if edge_missing ≥ 1 then c + 0.03 else c
  if is_home then d + home_adj else d - home_adj

/-- Injury adjustments to the expected pass rate, in source order
(model.py lines 348-366). -/
def expected_pass_rate_adjusted (expected_pass_rate : ℚ) (qb_out : Bool)
    (elite_wr_out ol_missing edge_missing : ℤ) : ℚ :=
  let a := if qb_out then expected_pass_rate - 0.07 else expected_pass_rate
  let b := a - (elite_wr_out * 0.02)
  let c := if ol_missing ≥ 2 then b - 0.02 else b
  if edge_missing ≥ 1 then c + 0.025 else c

/-- QB-out adjustment to the expected plays (model.py lines 348-352). -/
def plays_adjusted (expected_plays : ℚ) (qb_out : Bool) : ℚ :=
  if qb_out then expected_plays - 3.0 else expected_plays

/-- Injury adjustments to the weighted pass success rate
(model.py lines 348-361). -/
def pass_success_adjusted (pass_success : ℚ) (qb_out : Bool)
    (elite_wr_out ol_missing : ℤ) : ℚ :=
  let a := if qb_out then pass_success - 0.05 else pass_success
  let b := a - (elite_wr_out * 0.02)
  if ol_missing ≥ 2 then b - 0.03 else b

/-- Edge-missing adjustment to the opponent defensive pass EPA allowed
(model.py lines 363-364). -/
def d_pass_adjusted (d_pass : ℚ) (edge_missing : ℤ) : ℚ :=
  if edge_missing ≥ 1 then d_pass + 0.03 else d_pass

/-- Home/away adjustment to the offensive run EPA (model.py lines 368-375). -/
def o_run_adjusted (o_run : ℚ) (is_home : Bool) (home_adj : ℚ) : ℚ :=
  if is_home then o_run + home_adj else o_run - home_adj

/-- The values `project_team_score` extracts from its dictionary arguments
before the pure arithmetic: resolved paces, resolved defensive pass rate
against, the raising field lookups, and the venue constant. -/
structure ResolvedInputs where
  team_pace : ℚ
  opp_pace : ℚ
  def_pass_rate_against : ℚ
  team_pass_rate : ℚ
  proe : ℚ
  season_pass_epa : ℚ
  last5_pass_epa : ℚ
  season_run_epa : ℚ
  last5_run_epa : ℚ
  def_season_pass_epa : ℚ
  def_last5_pass_epa : ℚ
  def_season_run_epa : ℚ
  def_last5_run_epa : ℚ
  season_pass_success : ℚ
  last5_pass_success : ℚ
  season_run_success : ℚ
  last5_run_success : ℚ
  home_adj : ℚ
  deriving DecidableEq

/-- The fallible part of `project_team_score` (model.py lines 310-375): pace
and defensive-pass-rate resolution, then the raising `[...]` accesses in the
order the Python statements evaluate them, the deferred failure of arithmetic
on a `None` defensive pass rate (line 339), and the `home_adj[home_strength]`
access (lines 371/374, evaluated on both the home and the away branch). -/
def extractInputs (team_stats opp_stats : TeamStats) (home_strength : String)
    (pace_override opp_pace_override def_pass_rate_override : Option ℚ) :
    Except String ResolvedInputs := do
  let team_pace := resolvePace pace_override team_stats.pace
  let opp_pace := resolvePace opp_pace_override opp_stats.pace
  let dpr_value := resolveDefPassRate def_pass_rate_override opp_stats.def_pass_rate_against
  let team_pass_rate ← getField team_stats.pass_rate "pass_rate"
  let proe ← getField team_stats.proe "proe"
  let spe ← getField team_stats.season_pass_epa "season_pass_epa"
  let lpe ← getField team_stats.last5_pass_epa "last5_pass_epa"
  let sre ← getField team_stats.season_run_epa "season_run_epa"
  let lre ← getField team_stats.last5_run_epa "last5_run_epa"
  let dspe ← getField opp_stats.def_season_pass_epa "def_season_pass_epa"
  let dlpe ← getField opp_stats.def_last5_pass_epa "def_last5_pass_epa"
  let dsre ← getField opp_stats.def_season_run_epa "def_season_run_epa"
  let dlre ← getField opp_stats.def_last5_run_epa "def_last5_run_epa"
  let sps ← getField team_stats.season_pass_success "season_pass_success"
  let lps ← getField team_stats.last5_pass_success "last5_pass_success"
  let srs ← getField team_stats.season_run_success "season_run_success"
  let lrs ← getField team_stats.last5_run_success "last5_run_success"
  let dpr ← match dpr_value with
    | some v => Except.ok v
    | none => Except.error "TypeError: unsupported operand, def_pass_rate_against is None"
  let ha ← home_adj_lookup home_strength
  Except.ok ⟨team_pace, opp_pace, dpr, team_pass_rate, proe, spe, lpe, sre, lre,
    dspe, dlpe, dsre, dlre, sps, lps, srs, lrs, ha⟩

/-- The pure arithmetic of `project_team_score` (model.py lines 325-405) on the
extracted values: recency weighting, expected pass rate and plays, injury and
venue adjustments (via the `*_adjusted` helpers, in source order), net
efficiency, the single clamp of the pass rate, and the score assembly. -/
def project_core (v : ResolvedInputs) (is_home : Bool)
    (team_games_played opp_games_played : ℕ) (spread : ℚ) (qb_out : Bool)
    (elite_wr_out ol_missing edge_missing : ℤ)
    (pts_per_play_base league_avg_pass_rate : ℚ) : ProjectionResult :=
  let o_pass := calculate_weighted_epa v.season_pass_epa v.last5_pass_epa team_games_played
  let o_run := calculate_weighted_epa v.season_run_epa v.last5_run_epa team_games_played
  let d_pass := calculate_weighted_epa v.def_season_pass_epa v.def_last5_pass_epa opp_games_played
  let d_run := calculate_weighted_epa v.def_season_run_epa v.def_last5_run_epa opp_games_played
  let pass_success := calculate_weighted_epa v.season_pass_success v.last5_pass_success team_games_played
  let run_success := calculate_weighted_epa v.season_run_success v.last5_run_success team_games_played
  let expected_pass_rate := calculate_expected_pass_rate v.team_pass_rate v.proe
    v.def_pass_rate_against league_avg_pass_rate spread
  let expected_plays := calculate_expected_plays v.team_pace v.opp_pace spread
  let o_pass := o_pass_adjusted o_pass qb_out elite_wr_out ol_missing edge_missing is_home v.home_adj
  let expected_pass_rate := expected_pass_rate_adjusted expected_pass_rate qb_out
    elite_wr_out ol_missing edge_missing
  let expected_plays := plays_adjusted expected_plays qb_out
  let pass_success := pass_success_adjusted pass_success qb_out elite_wr_out ol_missing
  let d_pass := d_pass_adjusted d_pass edge_missing
  let o_run := o_run_adjusted o_run is_home v.home_adj
  let net_pass_epa := calculate_net_epa o_pass d_pass
  let net_run_epa := calculate_net_epa o_run d_run
  let final_pass_rate := max 0.35 (min 0.75 expected_pass_rate)
  let final_run_rate := 1.0 - final_pass_rate
  let total_matchup_epa := (final_pass_rate * net_pass_epa) + (final_run_rate * net_run_epa)
  let expected_pass_attempts := final_pass_rate * expected_plays
  let base_score := (pts_per_play_base + total_matchup_epa) * expected_plays
  let blended_success := (final_pass_rate * pass_success) + (final_run_rate * run_success)
  let success_adjustment := calculate_success_rate_adjustment blended_success 0.46 55
  let projected_score := base_score + success_adjustment
  ⟨projected_score, final_pass_rate, expected_plays, expected_pass_attempts,
    total_matchup_epa, blended_success, success_adjustment⟩

/-- Embedding of `project_team_score` (model.py lines 301-405): extract and resolve the
dictionary inputs (any KeyError/TypeError propagates), then run the pure
projection arithmetic. -/
def project_team_score (team_stats opp_stats : TeamStats) (is_home : Bool)
    (team_games_played opp_games_played : ℕ) (spread : ℚ) (qb_out : Bool)
    (elite_wr_out ol_missing edge_missing : ℤ)
    (pts_per_play_base league_avg_pass_rate : ℚ) (home_strength : String)
    (pace_override opp_pace_override def_pass_rate_override : Option ℚ) :
    Except String ProjectionResult :=
  (extractInputs team_stats opp_stats home_strength
      pace_override opp_pace_override def_pass_rate_override).map
    (fun v => project_core v is_home team_games_played opp_games_played spread
      qb_out elite_wr_out ol_missing edge_missing pts_per_play_base league_avg_pass_rate)

/-- The aggregation step of `get_game_projection` (model.py lines 557-600):
base and weather-adjusted totals plus the advisory betting-insight flags.
The source prints the flags; here each printed insight is a boolean field,
with the `if`/`elif` structure of lines 584-600 preserved. -/
structure GameSummary where
  base_total : ℚ
  final_total : ℚ
  flag_high_total : Bool
  flag_low_total : Bool
  flag_high_pass_volume : Bool
  flag_weather_under : Bool
  flag_high_success : Bool
  flag_low_success : Bool
  deriving DecidableEq

/-- Totals and advisory flags computed from the two projections and the
weather adjustment (model.py lines 557-558 and 584-600). -/
def game_aggregate (team_a_proj team_b_proj : ProjectionResult)
    (weather_adjustment : ℚ) : GameSummary :=
  let base_total := team_a_proj.score + team_b_proj.score
  let weather_adjusted_total := base_total - weather_adjustment
  let total_pass_attempts := team_a_proj.pass_attempts + team_b_proj.pass_attempts
  let avg_success := (team_a_proj.success_rate + team_b_proj.success_rate) / 2
  { base_total := base_total
    final_total := weather_adjusted_total
    flag_high_total := weather_adjusted_total ≥ 48
    flag_low_total := ¬(weather_adjusted_total ≥ 48) ∧ weather_adjusted_total ≤ 40
    flag_high_pass_volume := total_pass_attempts ≥ 80
    flag_weather_under := weather_adjustment ≥ 3
    flag_high_success := avg_success ≥ 0.48
    flag_low_success := ¬(avg_success ≥ 0.48) ∧ avg_success ≤ 0.42 }

/-- A team statistics record with every field present (the shape
`merge_team_data` produces when every CSV has the team), parametrised by the
stored values; `pace` and `def_pass_rate_against` keep their possibly-`None`
payload. -/
def mkStats (pr proe : ℚ) (pace dpr : Option (Option ℚ))
    (spe lpe sre lre sps lps srs lrs dspe dlpe dsre dlre : ℚ) : TeamStats :=
  ⟨some pr, some proe, pace, dpr, some spe, some lpe, some sre, some lre,
   some sps, some lps, some srs, some lrs, some dspe, some dlpe, some dsre, some dlre⟩

/-- A fully-populated record with league-neutral values: pass rate 0.60,
PROE 0, pace 65, defensive pass rate against 0.60, all EPA 0, success rates at
the 0.46/0.43 league averages. -/
def neutralStats : TeamStats :=
  ⟨some 0.60, some 0.0, some (some 65.0), some (some 0.60), some 0.0, some 0.0,
   some 0.0, some 0.0, some 0.46, some 0.46, some 0.43, some 0.43,
   some 0.0, some 0.0, some 0.0, some 0.0⟩

/-- Bind of a success value in the `Except` monad computes. -/
theorem ok_bind {ε α β : Type} (a : α) (f : α → Except ε β) :
    (Except.ok a : Except ε α) >>= f = f a := rfl

/-- Bind of an error value in the `Except` monad short-circuits. -/
theorem error_bind {ε α β : Type} (e : ε) (f : α → Except ε β) :
    (Except.error e : Except ε α) >>= f = Except.error e := rfl

/-- Mapping over a success value computes. -/
theorem exc_map_ok {ε α β : Type} (f : α → β) (a : α) :
    Except.map f (Except.ok a : Except ε α) = Except.ok (f a) := rfl

/-- Mapping over an error value short-circuits. -/
theorem exc_map_error {ε α β : Type} (f : α → β) (e : ε) :
    Except.map f (Except.error e : Except ε α) = Except.error e := rfl

/-- Claim C2: the recency-weighted blend returns the season value `s` for
`g ≤ 5` regardless of the recent value, `0.65·s + 0.35·r` for `6 ≤ g ≤ 10`,
`0.50·s + 0.50·r` for `11 ≤ g ≤ 14`, and `0.40·s + 0.60·r` for `g ≥ 15`, with
hard steps and no gap or overlap at the boundaries 5/6, 10/11, 14/15. -/
theorem weighted_epa_buckets (s r : ℚ) (g : ℕ) :
    (g ≤ 5 → calculate_weighted_epa s r g = s) ∧
    (6 ≤ g → g ≤ 10 → calculate_weighted_epa s r g = 0.65 * s + 0.35 * r) ∧
    (11 ≤ g → g ≤ 14 → calculate_weighted_epa s r g = 0.50 * s + 0.50 * r) ∧
    (15 ≤ g → calculate_weighted_epa s r g = 0.40 * s + 0.60 * r) := by
  unfold calculate_weighted_epa
  split_ifs with h1 h2 h3 <;>
    refine ⟨fun hg => ?_, fun hg hg2 => ?_, fun hg hg2 => ?_, fun hg => ?_⟩ <;>
    first | ring1 | (exfalso; omega)

/-- Witness for C2: one concrete blend in each bucket, at the boundary games
counts 5, 6, 10, 11, 14 and 15, including the spec's scenario 2
(season 0.10, last-5 0.50, 3 games → 0.10). -/
theorem weighted_epa_buckets_witness :
    calculate_weighted_epa 0.10 0.50 3 = 0.10 ∧
    calculate_weighted_epa 0.10 0.50 5 = 0.10 ∧
    calculate_weighted_epa 0.10 0.50 6 = 0.65 * 0.10 + 0.35 * 0.50 ∧
    calculate_weighted_epa 0.10 0.50 10 = 0.65 * 0.10 + 0.35 * 0.50 ∧
    calculate_weighted_epa 0.10 0.50 11 = 0.50 * 0.10 + 0.50 * 0.50 ∧
    calculate_weighted_epa 0.10 0.50 14 = 0.50 * 0.10 + 0.50 * 0.50 ∧
    calculate_weighted_epa 0.10 0.50 15 = 0.40 * 0.10 + 0.60 * 0.50 :=
  ⟨(weighted_epa_buckets 0.10 0.50 3).1 (by norm_num),
   (weighted_epa_buckets 0.10 0.50 5).1 (by norm_num),
   (weighted_epa_buckets 0.10 0.50 6).2.1 (by norm_num) (by norm_num),
   (weighted_epa_buckets 0.10 0.50 10).2.1 (by norm_num) (by norm_num),
   (weighted_epa_buckets 0.10 0.50 11).2.2.1 (by norm_num) (by norm_num),
   (weighted_epa_buckets 0.10 0.50 14).2.2.1 (by norm_num) (by norm_num),
   (weighted_epa_buckets 0.10 0.50 15).2.2.2 (by norm_num)⟩

/-- Claim C4: the weather penalty is the sum of three independent components
(wind band, non-cumulative and highest band only; sub-zero temperature;
precipitation lookup with `none`/`light_rain` and unknown codes at 0.0), is
always non-negative, and equals 16.0 at wind 20, temperature −5, blizzard. -/
theorem weather_adjustment_additive_nonneg (w t : ℚ) (p : String) :
    calculate_weather_adjustment w t p =
      (if w ≥ 20 then (6.0 : ℚ) else if w ≥ 15 then 3.0 else if w ≥ 10 then 1.0 else 0)
        + (if t < 0 then (2.0 : ℚ) else 0) + precip_impact p ∧
    0 ≤ calculate_weather_adjustment w t p ∧
    precip_impact "heavy_rain" = 3.0 ∧
    precip_impact "light_snow" = 2.0 ∧
    precip_impact "heavy_snow" = 4.0 ∧
    precip_impact "blizzard" = 8.0 ∧
    precip_impact "none" = 0 ∧
    precip_impact "light_rain" = 0 ∧
    calculate_weather_adjustment 20 (-5) "blizzard" = 16.0 := by
  have hp : 0 ≤ precip_impact p := by
    unfold precip_impact
    split_ifs <;> norm_num
  refine ⟨?_, ?_, by with_unfolding_all rfl, by with_unfolding_all rfl,
    by with_unfolding_all rfl, by with_unfolding_all rfl, by with_unfolding_all rfl,
    by with_unfolding_all rfl, by with_unfolding_all rfl⟩
  · simp only [calculate_weather_adjustment]
    split_ifs <;> ring1
  · simp only [calculate_weather_adjustment]
    split_ifs <;> linarith

/-- Claim C5: the expected pass rate is
`0.6·(pass_rate + proe) + 0.4·(pass_rate + (def_pass_rate_against −
league_avg_pass_rate))` plus the spread step (+0.05 for spread ≥ 7, +0.03 for
4 ≤ spread < 7, −0.04 for spread ≤ −7, −0.02 for −7 < spread ≤ −4, 0
otherwise), and the all-0.60 neutral scenario with spread 0 gives exactly
0.60. -/
theorem expected_pass_rate_formula (pr proe dpr lavg s : ℚ) :
    (7 ≤ s → calculate_expected_pass_rate pr proe dpr lavg s
      = 0.6 * (pr + proe) + 0.4 * (pr + (dpr - lavg)) + 0.05) ∧
    (4 ≤ s → s < 7 → calculate_expected_pass_rate pr proe dpr lavg s
      = 0.6 * (pr + proe) + 0.4 * (pr + (dpr - lavg)) + 0.03) ∧
    (s ≤ -7 → calculate_expected_pass_rate pr proe dpr lavg s
      = 0.6 * (pr + proe) + 0.4 * (pr + (dpr - lavg)) - 0.04) ∧
    (-7 < s → s ≤ -4 → calculate_expected_pass_rate pr proe dpr lavg s
      = 0.6 * (pr + proe) + 0.4 * (pr + (dpr - lavg)) - 0.02) ∧
    (-4 < s → s < 4 → calculate_expected_pass_rate pr proe dpr lavg s
      = 0.6 * (pr + proe) + 0.4 * (pr + (dpr - lavg))) ∧
    calculate_expected_pass_rate 0.60 0.0 0.60 0.60 0 = 0.60 := by
  refine ⟨fun h => ?_, fun h h2 => ?_, fun h => ?_, fun h h2 => ?_, fun h h2 => ?_,
    by with_unfolding_all rfl⟩ <;>
  · simp only [calculate_expected_pass_rate]
    split_ifs <;> first | ring1 | linarith

/-- Witness for C5: the spread step evaluated in each band (spreads 8, 5, −8,
−5 and 0) on concrete rates. -/
theorem expected_pass_rate_formula_witness :
    calculate_expected_pass_rate 0.55 0.02 0.62 0.60 8
      = 0.6 * (0.55 + 0.02) + 0.4 * (0.55 + (0.62 - 0.60)) + 0.05 ∧
    calculate_expected_pass_rate 0.55 0.02 0.62 0.60 5
      = 0.6 * (0.55 + 0.02) + 0.4 * (0.55 + (0.62 - 0.60)) + 0.03 ∧
    calculate_expected_pass_rate 0.55 0.02 0.62 0.60 (-8)
      = 0.6 * (0.55 + 0.02) + 0.4 * (0.55 + (0.62 - 0.60)) - 0.04 ∧
    calculate_expected_pass_rate 0.55 0.02 0.62 0.60 (-5)
      = 0.6 * (0.55 + 0.02) + 0.4 * (0.55 + (0.62 - 0.60)) - 0.02 ∧
    calculate_expected_pass_rate 0.55 0.02 0.62 0.60 0
      = 0.6 * (0.55 + 0.02) + 0.4 * (0.55 + (0.62 - 0.60)) :=
  ⟨(expected_pass_rate_formula 0.55 0.02 0.62 0.60 8).1 (by norm_num),
   (expected_pass_rate_formula 0.55 0.02 0.62 0.60 5).2.1 (by norm_num) (by norm_num),
   (expected_pass_rate_formula 0.55 0.02 0.62 0.60 (-8)).2.2.1 (by norm_num),
   (expected_pass_rate_formula 0.55 0.02 0.62 0.60 (-5)).2.2.2.1 (by norm_num) (by norm_num),
   (expected_pass_rate_formula 0.55 0.02 0.62 0.60 0).2.2.2.2.1 (by norm_num) (by norm_num)⟩

/-- Claim C7: the net efficiency combiner returns exactly
`(o·1.6 + d·1.0)/2.6` and is homogeneous in scale for positive scalars. -/
theorem net_epa_formula_and_scale (o d k : ℚ) :
    calculate_net_epa o d = (o * 1.6 + d * 1.0) / 2.6 ∧
    (0 < k → calculate_net_epa (k * o) (k * d) = k * calculate_net_epa o d) :=
  ⟨rfl, fun _ => by unfold calculate_net_epa; ring1⟩

/-- Witness for C7: the formula and scale-homogeneity at `o = 0.12`,
`d = -0.04`, `k = 3`. -/
theorem net_epa_formula_and_scale_witness :
    calculate_net_epa 0.12 (-0.04) = (0.12 * 1.6 + -0.04 * 1.0) / 2.6 ∧
    calculate_net_epa (3 * 0.12) (3 * -0.04) = 3 * calculate_net_epa 0.12 (-0.04) :=
  ⟨(net_epa_formula_and_scale 0.12 (-0.04) 3).1,
   (net_epa_formula_and_scale 0.12 (-0.04) 3).2 (by norm_num)⟩

/-- Claim C8: the aggregator computes `base_total = scoreA + scoreB` and
`final_total = base_total − weather_penalty`, and each advisory flag is a pure
predicate of the totals, pass attempts, penalty and success rates — the totals
are determined by the scores and the penalty alone, so no flag feeds back into
scoring. -/
theorem game_aggregate_totals_and_flags (a b : ProjectionResult) (w : ℚ) :
    (game_aggregate a b w).base_total = a.score + b.score ∧
    (game_aggregate a b w).final_total = (a.score + b.score) - w ∧
    ((game_aggregate a b w).flag_high_total = true ↔
      (game_aggregate a b w).final_total ≥ 48) ∧
    ((game_aggregate a b w).flag_low_total = true ↔
      ((game_aggregate a b w).final_total < 48 ∧ (game_aggregate a b w).final_total ≤ 40)) ∧
    ((game_aggregate a b w).flag_high_pass_volume = true ↔
      a.pass_attempts + b.pass_attempts ≥ 80) ∧
    ((game_aggregate a b w).flag_weather_under = true ↔ w ≥ 3) ∧
    ((game_aggregate a b w).flag_high_success = true ↔
      (a.success_rate + b.success_rate) / 2 ≥ 0.48) ∧
    ((game_aggregate a b w).flag_low_success = true ↔
      ((a.success_rate + b.success_rate) / 2 < 0.48 ∧
        (a.success_rate + b.success_rate) / 2 ≤ 0.42)) := by
  refine ⟨rfl, rfl, ?_, ?_, ?_, ?_, ?_, ?_⟩ <;> simp [game_aggregate]

/-- Claim C10: the zero-pace safety substitution replaces the resolved pace
with 62.0 exactly when it is 0 or Python `None`; an absent `pace` key resolves
to 65.0 first, and any non-zero value — negative included — passes through
unchanged, so a negative pace override yields negative plays, pass attempts
and score. -/
theorem pace_substitution_only_zero_or_none :
    (∀ (field : Option (Option ℚ)) (v : ℚ), v ≠ 0 → resolvePace (some v) field = v) ∧
    (∀ field : Option (Option ℚ), resolvePace (some 0) field = 62.0) ∧
    (∀ v : ℚ, v ≠ 0 → resolvePace none (some (some v)) = v) ∧
    resolvePace none (some (some 0)) = 62.0 ∧
    resolvePace none (some none) = 62.0 ∧
    resolvePace none none = 65.0 ∧
    ∃ res, project_team_score neutralStats neutralStats false 3 3 0 false 0 0 0 0.365 0.60
        "average" (some (-100)) (some (-100)) none = Except.ok res ∧
      res.plays < 0 ∧ res.pass_attempts < 0 ∧ res.score < 0 := by
  refine ⟨fun field v hv => ?_, fun field => by with_unfolding_all rfl,
    fun v hv => ?_, by with_unfolding_all rfl, by with_unfolding_all rfl,
    by with_unfolding_all rfl,
    ⟨⟨-91441/2600, 3/5, -97, -291/5, -3/325, 56/125, -33/50⟩,
      by with_unfolding_all rfl, by norm_num, by norm_num, by norm_num⟩⟩
  · simp only [resolvePace]
    rw [if_neg hv]
  · simp only [resolvePace, Option.getD]
    rw [if_neg hv]

/-- Witness for C10: a negative override and a positive record pace are used
unchanged. -/
theorem pace_substitution_only_zero_or_none_witness :
    resolvePace (some (-100)) none = -100 ∧
    resolvePace none (some (some 70.5)) = 70.5 :=
  ⟨pace_substitution_only_zero_or_none.1 none (-100) (by norm_num),
   pace_substitution_only_zero_or_none.2.2.1 70.5 (by norm_num)⟩

/-- Claim C9: on records with every field present, `project_team_score`
succeeds when `home_strength` is `weak`, `average` or `strong`, and raises a
KeyError for any other string — for away teams (`is_home = false`) just as for
home teams, since both branches evaluate the venue lookup. -/
theorem home_strength_lookup_strict
    (pr proe spe lpe sre lre sps lps srs lrs dspe dlpe dsre dlre : ℚ)
    (pr2 proe2 spe2 lpe2 sre2 lre2 sps2 lps2 srs2 lrs2 dspe2 dlpe2 dsre2 dlre2 : ℚ)
    (pace1 dpr1 pace2 dpr2 : Option (Option ℚ)) (dpo : ℚ)
    (is_home : Bool) (tgp ogp : ℕ) (spread : ℚ) (qb : Bool) (wr ol edge : ℤ)
    (ppb lavg : ℚ) (hs : String) :
    (hs = "weak" ∨ hs = "average" ∨ hs = "strong" →
      ∃ res, project_team_score
        (mkStats pr proe pace1 dpr1 spe lpe sre lre sps lps srs lrs dspe dlpe dsre dlre)
        (mkStats pr2 proe2 pace2 dpr2 spe2 lpe2 sre2 lre2 sps2 lps2 srs2 lrs2 dspe2 dlpe2 dsre2 dlre2)
        is_home tgp ogp spread qb wr ol edge ppb lavg hs none none (some dpo)
        = Except.ok res) ∧
    (hs ≠ "weak" → hs ≠ "average" → hs ≠ "strong" →
      project_team_score
        (mkStats pr proe pace1 dpr1 spe lpe sre lre sps lps srs lrs dspe dlpe dsre dlre)
        (mkStats pr2 proe2 pace2 dpr2 spe2 lpe2 sre2 lre2 sps2 lps2 srs2 lrs2 dspe2 dlpe2 dsre2 dlre2)
        is_home tgp ogp spread qb wr ol edge ppb lavg hs none none (some dpo)
        = Except.error ("KeyError: " ++ hs)) := by
  constructor
  · intro h
    rcases h with h | h | h <;> subst h <;> exact ⟨_, by with_unfolding_all rfl⟩
  · intro h1 h2 h3
    simp [project_team_score, extractInputs, getField, resolveDefPassRate,
      home_adj_lookup, mkStats, h1, h2, h3, ok_bind, error_bind, exc_map_error]

/-- Witness for C9: an away-team call succeeds with `home_strength = "strong"`
and raises a KeyError with `home_strength = "retractable"`. -/
theorem home_strength_lookup_strict_witness :
    (∃ res, project_team_score
      (mkStats 0.60 0.0 none none 0 0 0 0 0.46 0.46 0.43 0.43 0 0 0 0)
      (mkStats 0.60 0.0 none none 0 0 0 0 0.46 0.46 0.43 0.43 0 0 0 0)
      false 3 3 0 false 0 0 0 0.365 0.60 "strong" none none (some 0.60)
      = Except.ok res) ∧
    project_team_score
      (mkStats 0.60 0.0 none none 0 0 0 0 0.46 0.46 0.43 0.43 0 0 0 0)
      (mkStats 0.60 0.0 none none 0 0 0 0 0.46 0.46 0.43 0.43 0 0 0 0)
      false 3 3 0 false 0 0 0 0.365 0.60 "retractable" none none (some 0.60)
      = Except.error ("KeyError: " ++ "retractable") :=
  ⟨(home_strength_lookup_strict 0.60 0.0 0 0 0 0 0.46 0.46 0.43 0.43 0 0 0 0
      0.60 0.0 0 0 0 0 0.46 0.46 0.43 0.43 0 0 0 0
      none none none none 0.60 false 3 3 0 false 0 0 0 0.365 0.60 "strong").1
      (Or.inr (Or.inr rfl)),
   (home_strength_lookup_strict 0.60 0.0 0 0 0 0 0.46 0.46 0.43 0.43 0 0 0 0
      0.60 0.0 0 0 0 0 0.46 0.46 0.43 0.43 0 0 0 0
      none none none none 0.60 false 3 3 0 false 0 0 0 0.365 0.60 "retractable").2
      (by decide) (by decide) (by decide)⟩

/-- Counterexample to claim C1: a record omitting `season_pass_success` (a
documented field whose documented default is 0.46) makes `project_team_score`
raise a KeyError instead of applying the default. -/
theorem project_missing_field_raises :
    project_team_score { neutralStats with season_pass_success := none } neutralStats
      false 3 3 0 false 0 0 0 0.365 0.60 "average" none none none
      = Except.error "KeyError: season_pass_success" := by
  with_unfolding_all rfl

/-- Claim C1 (amended): the engine itself defaults only the `pace` field
(65.0 when absent) and the opponent `def_pass_rate_against` field (0.60 when
absent) and then completes normally; a record omitting any other documented
field — `pass_rate` here — raises a KeyError for every choice of the remaining
inputs.  The 0.46/0.43/0.0/0.60 league-average defaults live in the ingestion
merge, not in the engine. -/
theorem engine_defaults_pace_and_def_pass_rate_only
    (pr proe spe lpe sre lre sps lps srs lrs dspe dlpe dsre dlre : ℚ)
    (pr2 proe2 spe2 lpe2 sre2 lre2 sps2 lps2 srs2 lrs2 dspe2 dlpe2 dsre2 dlre2 : ℚ)
    (is_home : Bool) (tgp ogp : ℕ) (spread : ℚ) (qb : Bool) (wr ol edge : ℤ)
    (ppb lavg : ℚ) :
    project_team_score
      (mkStats pr proe none none spe lpe sre lre sps lps srs lrs dspe dlpe dsre dlre)
      (mkStats pr2 proe2 none none spe2 lpe2 sre2 lre2 sps2 lps2 srs2 lrs2 dspe2 dlpe2 dsre2 dlre2)
      is_home tgp ogp spread qb wr ol edge ppb lavg "average" none none none
      = Except.ok (project_core
          ⟨65.0, 65.0, 0.60, pr, proe, spe, lpe, sre, lre, dspe2, dlpe2, dsre2, dlre2,
           sps, lps, srs, lrs, 0.015⟩
          is_home tgp ogp spread qb wr ol edge ppb lavg) ∧
    ∀ (hs : String) (po opo dpo : Option ℚ),
      project_team_score
        { mkStats pr proe none none spe lpe sre lre sps lps srs lrs dspe dlpe dsre dlre
            with pass_rate := none }
        (mkStats pr2 proe2 none none spe2 lpe2 sre2 lre2 sps2 lps2 srs2 lrs2 dspe2 dlpe2 dsre2 dlre2)
        is_home tgp ogp spread qb wr ol edge ppb lavg hs po opo dpo
        = Except.error "KeyError: pass_rate" := by
  constructor
  · with_unfolding_all rfl
  · intro hs po opo dpo
    with_unfolding_all rfl

/-- Claim C6: flipping only the QB-out flag shifts the adjusted offensive pass
EPA by exactly −0.20, the pre-clamp expected pass rate by −0.07, the plays by
−3.0 and the pass success rate by −0.05, for all inputs; on the neutral
scenario the Projection Result's `pass_rate` field is 0.53 with QB out versus
0.60 without — a difference of exactly −0.07. -/
theorem qb_out_exact_deltas :
    (∀ (w : ℚ) (wr ol edge : ℤ) (is_home : Bool) (ha : ℚ),
      o_pass_adjusted w true wr ol edge is_home ha
        = o_pass_adjusted w false wr ol edge is_home ha - 0.20) ∧
    (∀ (e : ℚ) (wr ol edge : ℤ),
      expected_pass_rate_adjusted e true wr ol edge
        = expected_pass_rate_adjusted e false wr ol edge - 0.07) ∧
    (∀ p : ℚ, plays_adjusted p true = plays_adjusted p false - 3.0) ∧
    (∀ (sv : ℚ) (wr ol : ℤ),
      pass_success_adjusted sv true wr ol = pass_success_adjusted sv false wr ol - 0.05) ∧
    (project_team_score neutralStats neutralStats false 3 3 0 true 0 0 0 0.365 0.60
        "average" none none none).map ProjectionResult.pass_rate = Except.ok 0.53 ∧
    (project_team_score neutralStats neutralStats false 3 3 0 false 0 0 0 0.365 0.60
        "average" none none none).map ProjectionResult.pass_rate = Except.ok 0.60 ∧
    (0.53 : ℚ) = 0.60 - 0.07 := by
  refine ⟨fun w wr ol edge is_home ha => ?_, fun e wr ol edge => ?_, fun p => ?_,
    fun sv wr ol => ?_, by with_unfolding_all rfl, by with_unfolding_all rfl,
    by norm_num⟩
  · simp only [o_pass_adjusted]
    split_ifs <;> first | ring1 | contradiction
  · simp only [expected_pass_rate_adjusted]
    split_ifs <;> first | ring1 | contradiction
  · simp only [plays_adjusted]
    split_ifs <;> first | ring1 | contradiction
  · simp only [pass_success_adjusted]
    split_ifs <;> first | ring1 | contradiction

/-- Claim C3: every Projection Result has `pass_rate` in [0.35, 0.75]; the
field equals the raw expected pass rate with injury adjustments applied
(clamped exactly once, after all of them — not inside
`calculate_expected_pass_rate`), and downstream uses the complementary run
rate `1 − pass_rate`: pass attempts, matchup EPA and the blended success rate
are formed from `pass_rate` and `1 − pass_rate`. -/
theorem pass_rate_clamped_once_after_injuries
    (ts os : TeamStats) (is_home : Bool) (tgp ogp : ℕ) (spread : ℚ) (qb : Bool)
    (wr ol edge : ℤ) (ppb lavg : ℚ) (hs : String) (po opo dpo : Option ℚ)
    (r : ProjectionResult)
    (h : project_team_score ts os is_home tgp ogp spread qb wr ol edge ppb lavg hs po opo dpo
      = Except.ok r) :
    0.35 ≤ r.pass_rate ∧ r.pass_rate ≤ 0.75 ∧
    ∀ v, extractInputs ts os hs po opo dpo = Except.ok v →
      r.pass_rate = max 0.35 (min 0.75 (expected_pass_rate_adjusted
        (calculate_expected_pass_rate v.team_pass_rate v.proe v.def_pass_rate_against lavg spread)
        qb wr ol edge)) ∧
      r.pass_attempts = r.pass_rate * r.plays ∧
      r.matchup_epa = r.pass_rate * calculate_net_epa
          (o_pass_adjusted (calculate_weighted_epa v.season_pass_epa v.last5_pass_epa tgp)
            qb wr ol edge is_home v.home_adj)
          (d_pass_adjusted (calculate_weighted_epa v.def_season_pass_epa v.def_last5_pass_epa ogp) edge)
        + (1 - r.pass_rate) * calculate_net_epa
          (o_run_adjusted (calculate_weighted_epa v.season_run_epa v.last5_run_epa tgp) is_home v.home_adj)
          (calculate_weighted_epa v.def_season_run_epa v.def_last5_run_epa ogp) ∧
      r.success_rate = r.pass_rate * pass_success_adjusted
          (calculate_weighted_epa v.season_pass_success v.last5_pass_success tgp) qb wr ol
        + (1 - r.pass_rate) * calculate_weighted_epa v.season_run_success v.last5_run_success tgp := by
  unfold project_team_score at h
  cases hE : extractInputs ts os hs po opo dpo with
  | error e =>
    rw [hE, exc_map_error] at h
    exact absurd h (by simp)
  | ok v0 =>
    rw [hE, exc_map_ok] at h
    injection h with h'
    subst h'
    refine ⟨le_max_left _ _, max_le (by norm_num) (min_le_left _ _), fun v hv => ?_⟩
    injection hv with hv'
    subst hv'
    exact ⟨rfl, rfl, by with_unfolding_all rfl, by with_unfolding_all rfl⟩

/-- Witness for C3: the clamp bounds on the neutral-stats projection. -/
theorem pass_rate_clamped_once_after_injuries_witness :
    0.35 ≤ (project_core
      ⟨65.0, 65.0, 0.60, 0.60, 0.0, 0.0, 0.0, 0.0, 0.0, 0.0, 0.0, 0.0, 0.0,
       0.46, 0.46, 0.43, 0.43, 0.015⟩
      false 3 3 0 false 0 0 0 0.365 0.60).pass_rate ∧
    (project_core
      ⟨65.0, 65.0, 0.60, 0.60, 0.0, 0.0, 0.0, 0.0, 0.0, 0.0, 0.0, 0.0, 0.0,
       0.46, 0.46, 0.43, 0.43, 0.015⟩
      false 3 3 0 false 0 0 0 0.365 0.60).pass_rate ≤ 0.75 :=
  ⟨(pass_rate_clamped_once_after_injuries neutralStats neutralStats false 3 3 0 false
      0 0 0 0.365 0.60 "average" none none none
      (project_core
        ⟨65.0, 65.0, 0.60, 0.60, 0.0, 0.0, 0.0, 0.0, 0.0, 0.0, 0.0, 0.0, 0.0,
         0.46, 0.46, 0.43, 0.43, 0.015⟩
        false 3 3 0 false 0 0 0 0.365 0.60)
      (by with_unfolding_all rfl)).1,
   (pass_rate_clamped_once_after_injuries neutralStats neutralStats false 3 3 0 false
      0 0 0 0.365 0.60 "average" none none none
      (project_core
        ⟨65.0, 65.0, 0.60, 0.60, 0.0, 0.0, 0.0, 0.0, 0.0, 0.0, 0.0, 0.0, 0.0,
         0.46, 0.46, 0.43, 0.43, 0.015⟩
        false 3 3 0 false 0 0 0 0.365 0.60)
      (by with_unfolding_all rfl)).2.1⟩

end Model
